import Mathlib

/-!
Verification of the Fieldify message-extraction pipeline.

This file gives a shallow embedding of the pipeline code (`src/bot.py`,
`src/config_interface.py`, `src/text_processor.py`, `src/database.py`) and
proves or refutes the specification claims about it.

Python strings are modelled as `List Char` where character indexing matters
(Python strings are sequences of code points, while Lean `String` is UTF-8
encoded), and as Lean `String` where they are only compared or stored.
Python `dict`s are modelled as insertion-ordered association lists; the
`setKey` operation mirrors Python assignment `d[k] = v`, which replaces the
value of an existing key in place and appends a fresh key at the end.
-/

namespace Fieldify

/-! ## Python dict model -/

/-- Model of Python `d[k] = v`: replace in place when the key exists,
otherwise append at the end. -/
def setKey {κ α : Type} [BEq κ] (m : List (κ × α)) (k : κ) (v : α) :
    List (κ × α) :=
  if m.any (fun p => p.1 == k) then
    m.map (fun p => if p.1 == k then (k, v) else p)
  else
    m ++ [(k, v)]

/-- Model of Python `d.get(k)` / `d[k]`: value of the first entry with key
`k`, if any. -/
def getKey {κ α : Type} [BEq κ] (m : List (κ × α)) (k : κ) : Option α :=
  (m.find? (fun p => p.1 == k)).map (fun p => p.2)

/-- Model of Python `d.update(d2)`: assign every entry of `d2` into `d` in
iteration order. -/
def dictUpdate {κ α : Type} [BEq κ] (m m2 : List (κ × α)) : List (κ × α) :=
  m2.foldl (fun acc p => setKey acc p.1 p.2) m

theorem getKey_nil {κ α : Type} [BEq κ] (k : κ) :
    getKey ([] : List (κ × α)) k = none := rfl

theorem getKey_cons {κ α : Type} [BEq κ] (a : κ) (v : α)
    (t : List (κ × α)) (k : κ) :
    getKey ((a, v) :: t) k = if a == k then some v else getKey t k := by
  simp only [getKey, List.find?]
  by_cases h : a == k
  · simp [h]
  · simp [h]

theorem getKey_eq_none_of_not_mem {κ α : Type} [BEq κ] [LawfulBEq κ]
    (m : List (κ × α)) (k : κ) (h : k ∉ m.map Prod.fst) :
    getKey m k = none := by
  induction m with
  | nil => rfl
  | cons p t ih =>
    obtain ⟨a, v⟩ := p
    simp only [List.map_cons, List.mem_cons] at h
    push_neg at h
    rw [getKey_cons]
    have : (a == k) = false := by
      simp [beq_eq_false_iff_ne]
      exact fun hak => h.1 hak.symm
    rw [this]
    simp only [Bool.false_eq_true, if_false]
    exact ih h.2

theorem getKey_append {κ α : Type} [BEq κ]
    (m m' : List (κ × α)) (k : κ) :
    getKey (m ++ m') k =
      match getKey m k with
      | some v => some v
      | none => getKey m' k := by
  induction m with
  | nil => simp [getKey_nil]
  | cons p t ih =>
    obtain ⟨a, v⟩ := p
    rw [List.cons_append, getKey_cons, getKey_cons]
    by_cases h : a == k
    · simp [h]
    · simp only [h, Bool.false_eq_true, if_false]
      exact ih

theorem getKey_map_replace_self {κ α : Type} [BEq κ] [LawfulBEq κ]
    (m : List (κ × α)) (k : κ) (v : α)
    (h : m.any (fun p => p.1 == k) = true) :
    getKey (m.map (fun p => if p.1 == k then (k, v) else p)) k = some v := by
  induction m with
  | nil => simp at h
  | cons p t ih =>
    obtain ⟨a, v'⟩ := p
    by_cases hak : (a == k) = true
    · simp only [List.map_cons, hak, if_pos]
      rw [getKey_cons]
      simp
    · simp only [List.any_cons, hak, Bool.false_or] at h
      simp only [List.map_cons, hak, Bool.false_eq_true, if_false]
      rw [getKey_cons, if_neg (by simp_all)]
      exact ih h

theorem getKey_map_replace_ne {κ α : Type} [BEq κ] [LawfulBEq κ]
    (m : List (κ × α)) (k k' : κ) (v : α) (h : k' ≠ k) :
    getKey (m.map (fun p => if p.1 == k then (k, v) else p)) k' =
      getKey m k' := by
  induction m with
  | nil => rfl
  | cons p t ih =>
    obtain ⟨a, v'⟩ := p
    by_cases hak : (a == k) = true
    · have ha : a = k := by simpa using hak
      simp only [List.map_cons, hak, if_pos]
      rw [getKey_cons, getKey_cons]
      have h1 : (k == k') = false := by
        simp only [beq_eq_false_iff_ne]; exact fun hk => h hk.symm
      have h2 : (a == k') = false := by
        simp only [beq_eq_false_iff_ne, ha]; exact fun hk => h hk.symm
      rw [h1, h2]
      simp only [Bool.false_eq_true, if_false]
      exact ih
    · simp only [List.map_cons, hak, Bool.false_eq_true, if_false]
      rw [getKey_cons, getKey_cons]
      by_cases hk' : (a == k') = true
      · simp [hk']
      · simp only [hk', Bool.false_eq_true, if_false]
        exact ih

theorem getKey_setKey_self {κ α : Type} [BEq κ] [LawfulBEq κ]
    (m : List (κ × α)) (k : κ) (v : α) :
    getKey (setKey m k v) k = some v := by
  unfold setKey
  by_cases h : m.any (fun p => p.1 == k) = true
  · rw [if_pos h]
    exact getKey_map_replace_self m k v h
  · rw [if_neg h, getKey_append]
    have hnone : getKey m k = none := by
      apply getKey_eq_none_of_not_mem
      intro hmem
      apply h
      rw [List.any_eq_true]
      obtain ⟨p, hp, hpk⟩ := List.mem_map.mp hmem
      exact ⟨p, hp, by simp [hpk]⟩
    rw [hnone, getKey_cons]
    simp

theorem getKey_setKey_ne {κ α : Type} [BEq κ] [LawfulBEq κ]
    (m : List (κ × α)) (k k' : κ) (v : α) (h : k' ≠ k) :
    getKey (setKey m k v) k' = getKey m k' := by
  unfold setKey
  by_cases hany : m.any (fun p => p.1 == k) = true
  · rw [if_pos hany]
    exact getKey_map_replace_ne m k k' v h
  · rw [if_neg hany, getKey_append]
    have hk : (k == k') = false := by
      simp only [beq_eq_false_iff_ne]; exact fun hk => h hk.symm
    rw [getKey_cons, hk]
    simp only [Bool.false_eq_true, if_false, getKey_nil]
    cases getKey m k' <;> rfl

/-- Keep the first defined option, fall back to the second (the value-level
semantics of looking a key up in an overriding dict first). -/
def pickFirst {α : Type} (a b : Option α) : Option α :=
  match a with
  | some v => some v
  | none => b

theorem getKey_dictUpdate {κ α : Type} [BEq κ] [LawfulBEq κ]
    (m m2 : List (κ × α)) (k : κ)
    (h : (m2.map Prod.fst).Nodup) :
    getKey (dictUpdate m m2) k = pickFirst (getKey m2 k) (getKey m k) := by
  induction m2 generalizing m with
  | nil => simp [dictUpdate, getKey_nil, pickFirst]
  | cons p t ih =>
    obtain ⟨a, v⟩ := p
    simp only [List.map_cons, List.nodup_cons] at h
    have step : dictUpdate m ((a, v) :: t) = dictUpdate (setKey m a v) t := rfl
    rw [step, ih _ h.2, getKey_cons]
    by_cases hak : (a == k) = true
    · have ha : a = k := by simpa using hak
      subst ha
      simp only [beq_self_eq_true, if_true]
      have ht : getKey t a = none :=
        getKey_eq_none_of_not_mem t a h.1
      rw [ht, getKey_setKey_self]
      rfl
    · have hne : k ≠ a := fun hk => hak (by simp [hk])
      rw [if_neg hak, getKey_setKey_ne m a k v hne]

/-! ## C1: the Extraction Coordinator merge (bot.py lines 909-925)

The worker body builds `extracted_data = {}`, then runs
`extracted_data.update(tag_data)` followed by
`extracted_data.update(ai_data)`.  (Each update is guarded by a truthiness
check on its argument, but updating with an empty dict is the identity, so
the guard is observationally irrelevant.) -/

/-- Merge of the two extractor outputs exactly as `process_queue` performs
it: an empty dict updated first with the tag-extractor output, then with the
auxiliary (AI) output. -/
def mergeExtracted (tag_data ai_data : List (String × String)) :
    List (String × String) :=
  dictUpdate (dictUpdate [] tag_data) ai_data

/-- C1 counterexample: on the spec's own example inputs, the field `date`,
present in the tag-extractor output with value `A`, IS overwritten by the
auxiliary extractor's value `B`; the merge does not equal
`[(date, A), (phone, X)]` as the claim asserts. -/
theorem c1_counterexample :
    getKey (mergeExtracted [("date", "A")] [("date", "B"), ("phone", "X")])
        "date" = some "B"
    ∧ some "B" ≠ some "A" := by
  constructor
  · rfl
  · decide

/-- C1 (amended): the merge in `process_queue` gives the AUXILIARY (AI)
output precedence: for every field, the merged value is the auxiliary
extractor's value when that field is present in the auxiliary output, and
the tag-extractor's value otherwise; in particular
`merge([(date, A)], [(date, B), (phone, X)])` maps `date` to `B` and
`phone` to `X`. -/
theorem c1_merge_auxiliary_precedence
    (tag_data ai_data : List (String × String)) (f : String)
    (htag : (tag_data.map Prod.fst).Nodup)
    (hai : (ai_data.map Prod.fst).Nodup) :
    getKey (mergeExtracted tag_data ai_data) f =
      pickFirst (getKey ai_data f) (getKey tag_data f) := by
  unfold mergeExtracted
  rw [getKey_dictUpdate _ _ _ hai, getKey_dictUpdate _ _ _ htag]
  simp [getKey_nil, pickFirst]
  cases getKey ai_data f <;> cases getKey tag_data f <;> rfl

/-- Witness for C1: the amended theorem applied at the spec's example
input. -/
theorem c1_merge_auxiliary_precedence_witness :
    ((([("date", "A")] : List (String × String)).map Prod.fst).Nodup
      ∧ (([("date", "B"), ("phone", "X")] :
          List (String × String)).map Prod.fst).Nodup)
    ∧ getKey (mergeExtracted [("date", "A")]
        [("date", "B"), ("phone", "X")]) "phone" =
      pickFirst (getKey [("date", "B"), ("phone", "X")] "phone")
        (getKey [("date", "A")] "phone") :=
  ⟨⟨by decide, by decide⟩,
    c1_merge_auxiliary_precedence _ _ "phone" (by decide) (by decide)⟩

/-! ## Tag extraction (bot.py lines 961-1007)

`extract_data_with_tags` iterates the active `(tag, field)` rules in
insertion order; for each tag occurring in the text it takes the substring
from just after the first occurrence of the tag up to the next newline (or
end of text), strips it, and — when the stripped value is non-empty —
assigns it to the rule's field in the result dict.  The JSON side effect on
`tag_values.json` (lines 983-1005) does not influence the returned dict and
is not modelled. -/

/-- Model of Python `text.find(sub)`: index of the first occurrence of
`needle` in `hay`, if any. -/
def firstOccur (needle : List Char) : List Char → Option Nat
  | [] => if needle.isPrefixOf [] then some 0 else none
  | c :: t =>
    if needle.isPrefixOf (c :: t) then some 0
    else (firstOccur needle t).map (fun i => i + 1)

/-- Model of Python `s.strip()`: drop leading and trailing whitespace. -/
def stripChars (s : List Char) : List Char :=
  ((s.dropWhile Char.isWhitespace).reverse.dropWhile Char.isWhitespace).reverse

/-- Value a single `(tag, field)` rule extracts from `text`
(bot.py lines 972-980): `none` when the tag does not occur in the text or
when the value between the first occurrence of the tag and the next newline
(or end of text) strips to the empty string; otherwise the stripped value. -/
def tagValue (text tag : List Char) : Option (List Char) :=
  match firstOccur tag text with
  | none => none
  | some i =>
    let v := stripChars ((text.drop (i + tag.length)).takeWhile
      (fun c => c != '\n'))
    if v = [] then none else some v

/-- One iteration of the rule loop in `extract_data_with_tags`. -/
def tagStep (text : List Char) (acc : List (String × List Char))
    (r : List Char × String) : List (String × List Char) :=
  match tagValue text r.1 with
  | none => acc
  | some v => setKey acc r.2 v

/-- Model of `MessageProcessor.extract_data_with_tags`: fold the rule loop
over the active rules in insertion order, starting from the empty dict. -/
def extract_data_with_tags (text : List Char)
    (tags : List (List Char × String)) : List (String × List Char) :=
  tags.foldl (tagStep text) []

theorem getKey_foldl_tagStep_not_mem (text : List Char)
    (tags : List (List Char × String)) (acc : List (String × List Char))
    (f : String) (h : f ∉ tags.map Prod.snd) :
    getKey (tags.foldl (tagStep text) acc) f = getKey acc f := by
  induction tags generalizing acc with
  | nil => rfl
  | cons r t ih =>
    simp only [List.map_cons, List.mem_cons] at h
    push_neg at h
    rw [List.foldl_cons, ih _ h.2]
    unfold tagStep
    cases tagValue text r.1 with
    | none => rfl
    | some v => exact getKey_setKey_ne acc r.2 f v h.1

/-- C2: for every text and rule set in which each rule targets a distinct
field, the extractor maps the field of a rule `(tag, field)` to exactly the
value described by the spec: the substring starting immediately after the
first occurrence of `tag` and ending at the next newline (or end of text),
trimmed of whitespace; the field is absent (not empty-string) when the tag
does not occur or the trimmed value is empty. -/
theorem c2_tag_extraction_spec (text : List Char)
    (tags : List (List Char × String)) (tag : List Char) (f : String)
    (hnd : (tags.map Prod.snd).Nodup) (hmem : (tag, f) ∈ tags) :
    getKey (extract_data_with_tags text tags) f = tagValue text tag := by
  obtain ⟨l₁, l₂, rfl⟩ := List.append_of_mem hmem
  rw [List.map_append, List.map_cons] at hnd
  rw [List.nodup_middle, List.nodup_cons] at hnd
  have hf : f ∉ l₁.map Prod.snd ∧ f ∉ l₂.map Prod.snd := by
    constructor
    · exact fun hm => hnd.1 (List.mem_append.mpr (Or.inl hm))
    · exact fun hm => hnd.1 (List.mem_append.mpr (Or.inr hm))
  unfold extract_data_with_tags
  rw [List.foldl_append, List.foldl_cons]
  rw [getKey_foldl_tagStep_not_mem text l₂ _ f hf.2]
  have hacc : getKey (l₁.foldl (tagStep text) []) f = none := by
    rw [getKey_foldl_tagStep_not_mem text l₁ [] f hf.1, getKey_nil]
  unfold tagStep
  cases tagValue text tag with
  | none => exact hacc
  | some v => exact getKey_setKey_self _ f v

/-- Witness for C2: the theorem applied to the single rule
`("Date:", date)` and the text `"Date: 7 May\nAddr: x"`. -/
theorem c2_tag_extraction_spec_witness :
    (((([("Date:".toList, "date")] : List (List Char × String)).map
        Prod.snd).Nodup)
      ∧ ("Date:".toList, "date") ∈
          ([("Date:".toList, "date")] : List (List Char × String)))
    ∧ getKey (extract_data_with_tags "Date: 7 May\nAddr: x".toList
        [("Date:".toList, "date")]) "date" =
      tagValue "Date: 7 May\nAddr: x".toList "Date:".toList :=
  ⟨⟨by decide, by decide⟩,
    c2_tag_extraction_spec _ _ _ _ (by decide) (by decide)⟩

/-- C3 counterexample: two rules target the same field `f`; both tags occur
with non-empty values (`A:` yields `x`, the later rule `B:` yields `y`).
The extractor keeps the LATER rule's value `y`, not the earliest rule's
value `x` as the claim asserts. -/
theorem c3_counterexample :
    getKey (extract_data_with_tags "A: x\nB: y".toList
        [("A:".toList, "f"), ("B:".toList, "f")]) "f" = some "y".toList
    ∧ some "y".toList ≠ some "x".toList := by
  constructor
  · decide
  · decide

/-- C3 (amended): when two or more rules target the same field, the LAST
rule (in insertion order) whose tag occurs with a non-empty trimmed value
wins: appending a rule `(tag, f)` overwrites any earlier value for `f`
whenever the new rule extracts a value, and leaves the earlier value in
place only when the new rule extracts nothing. -/
theorem c3_last_writer_wins (text : List Char)
    (tags : List (List Char × String)) (tag : List Char) (f : String) :
    getKey (extract_data_with_tags text (tags ++ [(tag, f)])) f =
      pickFirst (tagValue text tag)
        (getKey (extract_data_with_tags text tags) f) := by
  unfold extract_data_with_tags
  rw [List.foldl_append, List.foldl_cons, List.foldl_nil]
  unfold tagStep
  cases tagValue text tag with
  | none => rfl
  | some v =>
    simp only [pickFirst]
    exact getKey_setKey_self _ f v

/-! ## Tag-rule configuration mutations (bot.py 195-285, config_interface.py 93-108) -/

/-- Model of the `TagConfig` pydantic model (bot.py lines 47-50 and
config_interface.py lines 6-9). -/
structure TagConfig where
  tag : String
  field : String
  is_active : Bool
deriving DecidableEq

/-- The invariant claimed of a source's rule list: at most one rule per
distinct tag string. -/
def uniqueTags (rules : List TagConfig) : Prop :=
  (rules.map TagConfig.tag).Nodup

instance (rules : List TagConfig) : Decidable (uniqueTags rules) := by
  unfold uniqueTags; infer_instance

/-- Model of `ChatManager.handle_add_tag_command` (bot.py lines 216-231):
the new rule is appended only when no existing rule carries the same tag;
on a duplicate tag the command replies an error and leaves the list
unchanged.  Command-string parsing and whitespace stripping happen before
this point and are not modelled. -/
def handle_add_tag (rules : List TagConfig) (tag f : String) :
    List TagConfig :=
  if rules.any (fun tc => tc.tag == tag) then rules
  else rules ++ [⟨tag, f, true⟩]

/-- Model of `ChatManager.handle_toggle_tag_command` (bot.py lines
269-276): flip `is_active` of the first rule carrying the tag (the loop
breaks after the first match); all other rules are untouched. -/
def toggle_tag : List TagConfig → String → List TagConfig
  | [], _ => []
  | tc :: rest, tag =>
    if tc.tag == tag then { tc with is_active := !tc.is_active } :: rest
    else tc :: toggle_tag rest tag

/-- Model of `ChatSettings.process_new_tag` (config_interface.py lines
93-108): the parsed rule is appended unconditionally — there is no
duplicate-tag check on this path. -/
def process_new_tag (rules : List TagConfig) (tag f : String) :
    List TagConfig :=
  rules ++ [⟨tag, f, true⟩]

/-- A configuration mutation on the `ChatManager` command path. -/
inductive MgrOp where
  | add (tag f : String)
  | toggle (tag : String)

def applyMgrOp (rules : List TagConfig) : MgrOp → List TagConfig
  | .add tag f => handle_add_tag rules tag f
  | .toggle tag => toggle_tag rules tag

def applyMgrOps (rules : List TagConfig) (ops : List MgrOp) :
    List TagConfig :=
  ops.foldl applyMgrOp rules

theorem toggle_tag_map_tag (rules : List TagConfig) (tag : String) :
    (toggle_tag rules tag).map TagConfig.tag = rules.map TagConfig.tag := by
  induction rules with
  | nil => rfl
  | cons tc rest ih =>
    unfold toggle_tag
    by_cases h : (tc.tag == tag) = true
    · simp [h]
    · simp only [h, Bool.false_eq_true, if_false, List.map_cons, ih]

theorem handle_add_tag_preserves (rules : List TagConfig) (tag f : String)
    (h : uniqueTags rules) : uniqueTags (handle_add_tag rules tag f) := by
  unfold handle_add_tag
  by_cases hany : rules.any (fun tc => tc.tag == tag) = true
  · rwa [if_pos hany]
  · rw [if_neg hany]
    unfold uniqueTags at *
    rw [List.map_append, List.nodup_append]
    refine ⟨h, List.nodup_singleton _, ?_⟩
    intro a ha hmem
    apply hany
    rw [List.any_eq_true]
    simp only [List.map_singleton, List.mem_singleton] at hmem
    obtain ⟨tc, htc, rfl⟩ := List.mem_map.mp ha
    exact ⟨tc, htc, by simp [hmem]⟩

theorem applyMgrOp_preserves (rules : List TagConfig) (op : MgrOp)
    (h : uniqueTags rules) : uniqueTags (applyMgrOp rules op) := by
  cases op with
  | add tag f => exact handle_add_tag_preserves rules tag f h
  | toggle tag =>
    unfold applyMgrOp uniqueTags
    rw [toggle_tag_map_tag]
    exact h

/-- C8 counterexample: `ChatSettings.process_new_tag` is one of the
mutation operations the claim covers, and it does NOT preserve the
invariant — adding the already-present tag `Дата:` yields a rule list with
two rules for that tag. -/
theorem c8_counterexample :
    uniqueTags [⟨"Дата:", "date", true⟩]
    ∧ ¬ uniqueTags
        (process_new_tag [⟨"Дата:", "date", true⟩] "Дата:" "date") := by
  constructor
  · decide
  · decide

/-- C8 (amended): every sequence of `ChatManager` mutations (add rule via
`handle_add_tag_command`, which rejects duplicate tags, and toggle rule via
`handle_toggle_tag_command`, which only flips the active flag) preserves
the at-most-one-rule-per-tag invariant; `ChatSettings.process_new_tag`
(config_interface.py), by contrast, appends without any duplicate check and
can violate it. -/
theorem c8_manager_ops_preserve_uniqueness (ops : List MgrOp)
    (rules : List TagConfig) (h : uniqueTags rules) :
    uniqueTags (applyMgrOps rules ops) := by
  induction ops generalizing rules with
  | nil => exact h
  | cons op t ih =>
    exact ih (applyMgrOp rules op) (applyMgrOp_preserves rules op h)

/-- Witness for C8: the amended theorem applied to the built-in default
rule list and a concrete add-then-toggle sequence. -/
theorem c8_manager_ops_preserve_uniqueness_witness :
    uniqueTags [⟨"Дата:", "date", true⟩, ⟨"Телефон:", "phone", true⟩]
    ∧ uniqueTags (applyMgrOps
        [⟨"Дата:", "date", true⟩, ⟨"Телефон:", "phone", true⟩]
        [.add "Дата:" "date2", .toggle "Дата:"]) :=
  ⟨by decide,
    c8_manager_ops_preserve_uniqueness
      [.add "Дата:" "date2", .toggle "Дата:"]
      [⟨"Дата:", "date", true⟩, ⟨"Телефон:", "phone", true⟩] (by decide)⟩

/-! ## Chat configuration and the threshold command (bot.py 52-57, 334-382, 798-825)

Python floats are modelled by `ℚ`: every behaviour the claims exercise is
an order comparison against `0`, `1` or the threshold, which `ℚ` models
exactly for the decimal literals the program handles. -/

/-- Model of the `ChatConfig` pydantic model (bot.py lines 52-57); the
`chat_id` field lives as the key of the configuration map. -/
structure ChatCfg where
  tags : List (String × String)
  use_nlp : Bool
  duplicate_threshold : ℚ
  active : Bool
deriving DecidableEq

/-- The built-in default tag rules (bot.py lines 64-69). -/
def default_tags : List (String × String) :=
  [("Дата:", "date"), ("Адрес:", "address"),
   ("Имя:", "name"), ("Телефон:", "phone")]

/-- Model of `ChatManager.get_active_tags` (bot.py lines 816-825): the
defaults when the chat has no rule list, otherwise the active rules as a
tag-to-field dict in insertion order. -/
def get_active_tags (tag_configs : List (Int × List TagConfig))
    (chat_id : Int) : List (String × String) :=
  match getKey tag_configs chat_id with
  | none => default_tags
  | some rules =>
    (rules.filter (fun tc => tc.is_active)).map (fun tc => (tc.tag, tc.field))

/-- The config `ChatManager.get_chat_config` creates for an unknown chat
(bot.py lines 802-809). -/
def default_chat_config (tag_configs : List (Int × List TagConfig))
    (chat_id : Int) : ChatCfg :=
  ⟨get_active_tags tag_configs chat_id, true, 7/10, true⟩

/-- Model of `ChatManager.get_chat_config` (bot.py lines 798-810).  The
original also inserts the freshly created default into the map; the
insertion is observationally equivalent for reads because a repeated lookup
returns the identical default, so the model keeps the read side only. -/
def get_chat_config (tag_configs : List (Int × List TagConfig))
    (chat_configs : List (Int × ChatCfg)) (chat_id : Int) : ChatCfg :=
  (getKey chat_configs chat_id).getD (default_chat_config tag_configs chat_id)

/-- Reply surfaced by the `/threshold` command. -/
inductive ThresholdReply where
  | rangeError
  | accepted (t : ℚ)
deriving DecidableEq

/-- Model of `ChatManager.handle_threshold_command` (bot.py lines 334-382)
after the numeric parse succeeded: values outside `[0,1]` are answered with
the range-error reply BEFORE any configuration is read or written; valid
values are stored through `get_chat_config` / `update_chat_config`. -/
def handle_threshold_command (tag_configs : List (Int × List TagConfig))
    (chat_configs : List (Int × ChatCfg)) (chat_id : Int) (t : ℚ) :
    ThresholdReply × List (Int × ChatCfg) :=
  if t < 0 ∨ t > 1 then (.rangeError, chat_configs)
  else
    let cfg := get_chat_config tag_configs chat_configs chat_id
    (.accepted t,
      setKey chat_configs chat_id { cfg with duplicate_threshold := t })

/-- C7: a threshold outside `[0,1]` makes the command answer the range
error and leave the chat-configuration map — in particular every stored
`duplicate_threshold` — completely unchanged. -/
theorem c7_threshold_out_of_range_rejected
    (tag_configs : List (Int × List TagConfig))
    (chat_configs : List (Int × ChatCfg)) (chat_id : Int) (t : ℚ)
    (h : t < 0 ∨ t > 1) :
    handle_threshold_command tag_configs chat_configs chat_id t =
      (.rangeError, chat_configs) := by
  unfold handle_threshold_command
  rw [if_pos h]

/-- Witness for C7: threshold `3/2` against a map holding one config. -/
theorem c7_threshold_out_of_range_rejected_witness :
    (((3 : ℚ)/2 < 0 ∨ (3 : ℚ)/2 > 1))
    ∧ handle_threshold_command []
        [(1, ⟨default_tags, true, 7/10, true⟩)] 1 ((3 : ℚ)/2) =
      (.rangeError, [(1, ⟨default_tags, true, 7/10, true⟩)]) :=
  ⟨Or.inr (by norm_num),
    c7_threshold_out_of_range_rejected _ _ 1 _ (Or.inr (by norm_num))⟩

/-! ## The field-equality duplicate check (bot.py 1023-1040, database.py)

`MessageProcessor.check_duplicates` builds a query filtered by `chat_id`
and then by each field of `extracted_data` that is truthy (present and not
the empty string), and reports whether any record matches.  The store is
modelled as the list of committed `messages` rows. -/

/-- A row of the `messages` table (database.py lines 17-27): nullable
string columns for the four extracted fields. -/
structure Record where
  chat_id : Int
  message_text : String
  date : Option String
  address : Option String
  name : Option String
  phone : Option String
  ts : Nat
deriving DecidableEq

/-- Python `data.get(k)` followed by a truthiness test: `none` for a
missing key or an empty-string value. -/
def truthyGet (data : List (String × String)) (k : String) : Option String :=
  match getKey data k with
  | some s => if s = "" then none else some s
  | none => none

/-- Model of `MessageProcessor.check_duplicates` (bot.py lines 1023-1040):
filter by chat, then by every truthy extracted field, and test whether any
record survives (`query.first() is not None`). -/
def check_duplicates (data : List (String × String)) (chat_id : Int)
    (store : List Record) : Bool :=
  let q0 := store.filter (fun r => r.chat_id == chat_id)
  let q1 := match truthyGet data "date" with
            | some v => q0.filter (fun (r : Record) => r.date == some v)
            | none => q0
  let q2 := match truthyGet data "address" with
            | some v => q1.filter (fun (r : Record) => r.address == some v)
            | none => q1
  let q3 := match truthyGet data "name" with
            | some v => q2.filter (fun (r : Record) => r.name == some v)
            | none => q2
  let q4 := match truthyGet data "phone" with
            | some v => q3.filter (fun (r : Record) => r.phone == some v)
            | none => q3
  !q4.isEmpty

theorem not_isEmpty_filter {α : Type} (l : List α) (p : α → Bool) :
    (!(l.filter p).isEmpty) = l.any p := by
  induction l with
  | nil => rfl
  | cons a t ih =>
    cases hpa : p a with
    | true => simp [List.filter_cons, hpa]
    | false => simp [List.filter_cons, hpa, ih]

/-- C6 counterexample: with an empty extraction the query degenerates to
the chat filter alone, so one pre-existing record for the source makes
`check_duplicates` return `true`, while the claim asserts it returns
`false`. -/
theorem c6_counterexample :
    check_duplicates [] 1 [⟨1, "old text", none, none, none, none, 0⟩] = true
    ∧ true ≠ false := by
  constructor
  · rfl
  · decide

/-- C6 (amended): an extraction with no fields contributes no field
predicates, so the field-equality check degenerates to "some record for
this source exists": it returns `true` exactly when the store holds at
least one record with the given chat id, and `false` only on a store with
none. -/
theorem c6_empty_fields_matches_any_record (chat_id : Int)
    (store : List Record) :
    check_duplicates [] chat_id store =
      store.any (fun r => r.chat_id == chat_id) := by
  unfold check_duplicates
  simp only [truthyGet, getKey_nil]
  exact not_isEmpty_filter store _

/-! ## Similarity-based duplicate detection (bot.py 947-959, text_processor.py)

`check_duplicates_with_levenshtein` wraps the whole candidate loop in a
`try`: any exception makes it return `False`.  The loop calls
`self.text_processor.is_similar(text, msg.message_text, threshold)`; the
`TextProcessor` class under `src/` defines no `is_similar` method, so on
the `src/` snapshot every such call raises `AttributeError`.  The
similarity helper itself is therefore passed as a fallible function, with
two instantiations: the attribute-error one faithful to `src/`, and one
modelled from the spec's similarity formula. -/

/-- A database session: committed rows (most recent first — `commit`
prepends, matching the `timestamp desc` ordering of the queries) and the
rows added but not yet committed. -/
structure Session where
  committed : List Record
  pending : List Record
deriving DecidableEq

/-- The candidate texts fetched in bot.py line 951: the 10 most recent
committed messages of the chat, most recent first. -/
def recentTexts (chat_id : Int) (s : Session) : List String :=
  ((s.committed.filter (fun r => r.chat_id == chat_id)).take 10).map
    (fun r => r.message_text)

/-- Exceptions the embedding distinguishes. -/
inductive PyErr where
  | attributeError
  | persistenceError
deriving DecidableEq

/-- The candidate loop of bot.py lines 953-956, with the similarity helper
as a fallible parameter: stop with `true` at the first similar candidate,
propagate the first exception. -/
def goSim (f : String → String → ℚ → Except PyErr Bool) (text : String)
    (thr : ℚ) : List String → Except PyErr Bool
  | [] => .ok false
  | m :: rest =>
    match f text m thr with
    | .error e => .error e
    | .ok true => .ok true
    | .ok false => goSim f text thr rest

/-- Model of `MessageProcessor.check_duplicates_with_levenshtein` (bot.py
lines 947-959): run the candidate loop; any exception is caught and the
function returns `false`. -/
def check_duplicates_with_levenshtein
    (f : String → String → ℚ → Except PyErr Bool) (text : String)
    (chat_id : Int) (thr : ℚ) (s : Session) : Bool :=
  match goSim f text thr (recentTexts chat_id s) with
  | .ok b => b
  | .error _ => false

/-- The similarity helper as the `src/` snapshot has it: `TextProcessor`
(text_processor.py lines 9-86) defines no `is_similar`, so every call
raises `AttributeError`. -/
def is_similar_missing : String → String → ℚ → Except PyErr Bool :=
  fun _ _ _ => .error .attributeError

/-- Modelled from the spec: the `levenshtein_distance` the similarity
strategy of §4.4 is defined from; the implementation of the similarity
helper is not part of the `src/` snapshot (only its caller in bot.py is).
Standard character-level edit distance. -/
def levenshtein (a b : List Char) : Nat :=
  match a, b with
  | [], b => b.length
  | a, [] => a.length
  | x :: xs, y :: ys =>
    if x = y then levenshtein xs ys
    else 1 + min (levenshtein xs (y :: ys))
          (min (levenshtein (x :: xs) ys) (levenshtein xs ys))
termination_by a.length + b.length
decreasing_by all_goals (simp [List.length_cons]; try omega)

/-- Modelled from the spec: similarity is
`1 - levenshtein_distance / max(len(a), len(b))`, clamped to `[0, 1]`.
Two identical empty texts (where the quotient is undefined) are taken as
maximally similar. -/
def simScore (a b : List Char) : ℚ :=
  if ((max a.length b.length : Nat) : ℚ) = 0 then 1
  else max 0 (min 1
    (1 - (levenshtein a b : ℚ) / ((max a.length b.length : Nat) : ℚ)))

/-- Modelled from the spec: a candidate is similar when the similarity
ratio reaches the threshold (`ratio ≥ threshold`). -/
def is_similar (a b : String) (thr : ℚ) : Bool :=
  decide (thr ≤ simScore a.toList b.toList)

/-- The duplicate check with the spec-modelled similarity helper plugged
in. -/
def check_dup_similarity (text : String) (chat_id : Int) (thr : ℚ)
    (s : Session) : Bool :=
  check_duplicates_with_levenshtein (fun a b t => .ok (is_similar a b t))
    text chat_id thr s

theorem goSim_total (g : String → String → ℚ → Bool) (text : String)
    (thr : ℚ) (l : List String) :
    goSim (fun a b t => .ok (g a b t)) text thr l =
      .ok (l.any (fun m => g text m thr)) := by
  induction l with
  | nil => rfl
  | cons m rest ih =>
    cases hg : g text m thr with
    | false =>
      simp only [goSim, hg, List.any_cons, Bool.false_or]
      exact ih
    | true =>
      simp only [goSim, hg, List.any_cons, Bool.true_or]

theorem levenshtein_self (a : List Char) : levenshtein a a = 0 := by
  induction a with
  | nil => simp [levenshtein.eq_def]
  | cons x xs ih =>
    rw [levenshtein.eq_def]
    simp [ih]

theorem simScore_self (a : List Char) : simScore a a = 1 := by
  unfold simScore
  by_cases h : ((max a.length a.length : Nat) : ℚ) = 0
  · rw [if_pos h]
  · rw [if_neg h, levenshtein_self]
    norm_num

theorem simScore_nonneg (a b : List Char) : 0 ≤ simScore a b := by
  unfold simScore
  by_cases h : ((max a.length b.length : Nat) : ℚ) = 0
  · rw [if_pos h]
    norm_num
  · rw [if_neg h]
    exact le_max_left 0 _

theorem simScore_lt_one_of_lev_ne_zero (a b : List Char)
    (h : levenshtein a b ≠ 0) : simScore a b < 1 := by
  unfold simScore
  have hm : ((max a.length b.length : Nat) : ℚ) ≠ 0 := by
    intro h0
    rw [Nat.cast_eq_zero, Nat.max_eq_zero_iff] at h0
    obtain ⟨ha, hb⟩ := h0
    rw [List.length_eq_zero] at ha hb
    subst ha; subst hb
    exact h (levenshtein_self [])
  rw [if_neg hm]
  have hmpos : (0 : ℚ) < ((max a.length b.length : Nat) : ℚ) := by
    have h0 : (0 : ℚ) ≤ ((max a.length b.length : Nat) : ℚ) :=
      Nat.cast_nonneg _
    exact lt_of_le_of_ne h0 (Ne.symm hm)
  have hd : (1 : ℚ) ≤ (levenshtein a b : ℚ) := by
    have : 1 ≤ levenshtein a b := Nat.one_le_iff_ne_zero.mpr h
    exact_mod_cast this
  have hdiv : (0 : ℚ) < (levenshtein a b : ℚ) / ((max a.length b.length : Nat) : ℚ) :=
    div_pos (lt_of_lt_of_le one_pos hd) hmpos
  have hlt : (1 : ℚ) - (levenshtein a b : ℚ) / ((max a.length b.length : Nat) : ℚ) < 1 :=
    sub_lt_self 1 hdiv
  exact max_lt (by norm_num) (lt_of_le_of_lt (min_le_right 1 _) hlt)

theorem is_similar_self (a : String) : is_similar a a 1 = true := by
  unfold is_similar
  rw [simScore_self]
  decide

theorem is_similar_thr_zero (a b : String) : is_similar a b 0 = true := by
  unfold is_similar
  rw [decide_eq_true_eq]
  exact simScore_nonneg _ _

theorem is_similar_ne_thr_one (a b : String)
    (h : levenshtein a.toList b.toList ≠ 0) : is_similar a b 1 = false := by
  unfold is_similar
  rw [decide_eq_false_iff_not]
  exact not_le.mpr (simScore_lt_one_of_lev_ne_zero _ _ h)

/-- C4: with the spec-modelled similarity helper, the duplicate check at
threshold `1` answers `true` whenever a record with raw text identical to
the incoming text is among the 10 most recent records of the source, and
answers `false` when the only recent candidate differs from the incoming
text by a single edit (and the text length is not 1). -/
theorem c4_similarity_duplicate_detection (chat_id : Int) (s s2 : Session)
    (text : String) :
    (text ∈ recentTexts chat_id s →
      check_dup_similarity text chat_id 1 s = true)
    ∧ (∀ b : String, levenshtein text.toList b.toList = 1 →
        text.length ≠ 1 → recentTexts chat_id s2 = [b] →
        check_dup_similarity text chat_id 1 s2 = false) := by
  constructor
  · intro hmem
    unfold check_dup_similarity check_duplicates_with_levenshtein
    rw [goSim_total]
    have : (recentTexts chat_id s).any (fun m => is_similar text m 1) = true :=
      List.any_eq_true.mpr ⟨text, hmem, is_similar_self text⟩
    rw [this]
  · intro b hlev _hlen hrec
    unfold check_dup_similarity check_duplicates_with_levenshtein
    rw [hrec, goSim_total]
    have : is_similar text b 1 = false :=
      is_similar_ne_thr_one text b (by rw [hlev]; exact one_ne_zero)
    simp [this]

/-- Witness for C4: a store whose only record for chat 1 is `hello` makes
the incoming `hello` a duplicate at threshold 1, and an incoming `ab`
against the single candidate `aa` (edit distance 1) is not a duplicate at
threshold 1. -/
theorem c4_similarity_duplicate_detection_witness :
    ("hello" ∈ recentTexts 1
        ⟨[⟨1, "hello", none, none, none, none, 0⟩], []⟩
      ∧ check_dup_similarity "hello" 1 1
          ⟨[⟨1, "hello", none, none, none, none, 0⟩], []⟩ = true)
    ∧ (levenshtein "ab".toList "aa".toList = 1
      ∧ ("ab" : String).length ≠ 1
      ∧ recentTexts 1 ⟨[⟨1, "aa", none, none, none, none, 0⟩], []⟩ = ["aa"]
      ∧ check_dup_similarity "ab" 1 1
          ⟨[⟨1, "aa", none, none, none, none, 0⟩], []⟩ = false) := by
  have e00 : levenshtein [] [] = 0 := by simp [levenshtein.eq_def]
  have e0a : levenshtein [] ['a'] = 1 := by simp [levenshtein.eq_def]
  have eb0 : levenshtein ['b'] [] = 1 := by simp [levenshtein.eq_def]
  have eba : levenshtein ['b'] ['a'] = 1 := by
    rw [levenshtein.eq_def]
    simp [e00, e0a, eb0]
  have hlev : levenshtein "ab".toList "aa".toList = 1 := by
    show levenshtein ['a', 'b'] ['a', 'a'] = 1
    rw [levenshtein.eq_def]
    simp [eba]
  constructor
  · exact ⟨by decide,
      (c4_similarity_duplicate_detection 1
          ⟨[⟨1, "hello", none, none, none, none, 0⟩], []⟩
          ⟨[], []⟩ "hello").1 (by decide)⟩
  · exact ⟨hlev, by decide, by decide,
      (c4_similarity_duplicate_detection 1
          ⟨[], []⟩ ⟨[⟨1, "aa", none, none, none, none, 0⟩], []⟩ "ab").2
        "aa" hlev (by decide) (by decide)⟩

/-- C10: the similarity duplicate check is fail-open — whenever the
candidate loop raises, `check_duplicates_with_levenshtein` returns
`false`; in particular, with the `src/` snapshot's `TextProcessor` (which
has no `is_similar` attribute) it returns `false` on every input, so
duplicate-detection failure never drops a message. -/
theorem c10_duplicate_check_fail_open :
    (∀ (f : String → String → ℚ → Except PyErr Bool) (text : String)
      (chat_id : Int) (thr : ℚ) (s : Session) (e : PyErr),
      goSim f text thr (recentTexts chat_id s) = .error e →
      check_duplicates_with_levenshtein f text chat_id thr s = false)
    ∧ (∀ (text : String) (chat_id : Int) (thr : ℚ) (s : Session),
      check_duplicates_with_levenshtein is_similar_missing
        text chat_id thr s = false) := by
  constructor
  · intro f text chat_id thr s e h
    unfold check_duplicates_with_levenshtein
    rw [h]
  · intro text chat_id thr s
    unfold check_duplicates_with_levenshtein
    cases recentTexts chat_id s with
    | nil => rfl
    | cons m rest => rfl

/-- Witness for C10: on a store with one candidate the missing helper makes
the loop raise `AttributeError` and the check return `false`. -/
theorem c10_duplicate_check_fail_open_witness :
    goSim is_similar_missing "a" 1
        (recentTexts 1 ⟨[⟨1, "b", none, none, none, none, 0⟩], []⟩) =
      .error .attributeError
    ∧ check_duplicates_with_levenshtein is_similar_missing "a" 1 1
        ⟨[⟨1, "b", none, none, none, none, 0⟩], []⟩ = false :=
  ⟨rfl, c10_duplicate_check_fail_open.1 is_similar_missing "a" 1 1
    ⟨[⟨1, "b", none, none, none, none, 0⟩], []⟩ .attributeError rfl⟩

/-! ## The worker loop (bot.py 894-945)

`process_queue` runs forever: dequeue an item, fetch the chat config, run
tag extraction, optionally the AI extractor, the Levenshtein duplicate
check, and persist; the whole per-item body sits in a `try` whose handler
logs and calls `session.rollback()`, after which the loop continues.

External collaborators are parameters: `aiExtract` is a total function
because `process_text_with_ai` catches its own exceptions and returns an
empty dict (text_processor.py lines 17-52); `commitF` models
`session.commit()` together with the `DBMessage(**extracted_data)`
construction and may raise; the duplicate checker parameter is
instantiated with `check_dup_similarity` or with the fail-open code
model. -/

/-- A queue item `(chat_id, message_text, timestamp)` (bot.py line 889). -/
structure Item where
  chat_id : Int
  text : String
  ts : Nat
deriving DecidableEq

/-- The `DBMessage` row built at bot.py lines 933-938: the four known
columns are taken from the extracted dict when present. -/
def mkRecord (it : Item) (extracted : List (String × String)) : Record :=
  { chat_id := it.chat_id, message_text := it.text,
    date := getKey extracted "date", address := getKey extracted "address",
    name := getKey extracted "name", phone := getKey extracted "phone",
    ts := it.ts }

/-- Model of `session.add` — the row joins the pending set. -/
def addPending (r : Record) (s : Session) : Session :=
  { s with pending := r :: s.pending }

/-- Model of `session.rollback()` — pending rows are discarded, committed
rows are untouched. -/
def rollbackS (s : Session) : Session :=
  { committed := s.committed, pending := [] }

/-- Tag extraction lifted to Lean strings: characters in, strings out. -/
def extractTagsStr (text : String) (tags : List (String × String)) :
    List (String × String) :=
  (extract_data_with_tags text.toList
    (tags.map (fun p => (p.1.toList, p.2)))).map
      (fun p => (p.1, String.mk p.2))

/-- Model of the per-item body of `process_queue` (bot.py lines 897-941),
from the config fetch up to the commit.  The `if not config` arm of the
original is unreachable because `get_chat_config` always returns a config,
so it is not modelled; `active_tags` is always passed to the extractor
because extracting with an empty rule dict returns the empty dict. -/
def stepItem (aiExtract : String → List (String × String))
    (dupCheck : String → Int → ℚ → Session → Bool)
    (commitF : Session → Except PyErr Session)
    (tag_configs : List (Int × List TagConfig))
    (chat_configs : List (Int × ChatCfg))
    (it : Item) (s : Session) : Except PyErr Session :=
  let config := get_chat_config tag_configs chat_configs it.chat_id
  if !config.active then .ok s
  else
    let active_tags := get_active_tags tag_configs it.chat_id
    let tag_data := extractTagsStr it.text active_tags
    let ai_data := if config.use_nlp then aiExtract it.text else []
    let extracted := dictUpdate (dictUpdate [] tag_data) ai_data
    if dupCheck it.text it.chat_id config.duplicate_threshold s then .ok s
    else commitF (addPending (mkRecord it extracted) s)

/-- Model of the worker loop over a finite run of queue items: each item's
body runs under the `try`; an exception is caught, the session is rolled
back, and the loop proceeds to the next item.  The function is total by
construction — no per-item exception escapes it. -/
def runWorker (aiExtract : String → List (String × String))
    (dupCheck : String → Int → ℚ → Session → Bool)
    (commitF : Session → Except PyErr Session)
    (tag_configs : List (Int × List TagConfig))
    (chat_configs : List (Int × ChatCfg))
    (items : List Item) (s : Session) : Session :=
  items.foldl (fun st it =>
    match stepItem aiExtract dupCheck commitF tag_configs chat_configs
        it st with
    | .ok st2 => st2
    | .error _ => rollbackS st) s

/-- C9: when the body of one item raises, the worker loop catches it:
processing continues with the remaining items, and the session handed to
them is the rolled-back one — committed rows unchanged, pending rows of the
failed item discarded.  `runWorker` returning `Session` (not `Except`)
states that no per-item exception propagates out of the loop. -/
theorem c9_worker_isolates_item_failure
    (aiExtract : String → List (String × String))
    (dupCheck : String → Int → ℚ → Session → Bool)
    (commitF : Session → Except PyErr Session)
    (tag_configs : List (Int × List TagConfig))
    (chat_configs : List (Int × ChatCfg))
    (it : Item) (items : List Item) (s : Session) (e : PyErr)
    (h : stepItem aiExtract dupCheck commitF tag_configs chat_configs
        it s = .error e) :
    runWorker aiExtract dupCheck commitF tag_configs chat_configs
        (it :: items) s =
      runWorker aiExtract dupCheck commitF tag_configs chat_configs
        items ⟨s.committed, []⟩ := by
  unfold runWorker
  rw [List.foldl_cons, h]
  rfl

/-- Witness for C9: a commit that always raises; the failing first item is
rolled back and the (empty) rest of the run still executes. -/
theorem c9_worker_isolates_item_failure_witness :
    stepItem (fun _ => []) (fun _ _ _ _ => false)
        (fun _ => .error .persistenceError) [] [] ⟨1, "hi", 0⟩ ⟨[], []⟩ =
      .error .persistenceError
    ∧ runWorker (fun _ => []) (fun _ _ _ _ => false)
        (fun _ => .error .persistenceError) [] [] [⟨1, "hi", 0⟩] ⟨[], []⟩ =
      runWorker (fun _ => []) (fun _ _ _ _ => false)
        (fun _ => .error .persistenceError) [] [] [] ⟨[], []⟩ :=
  ⟨rfl,
    c9_worker_isolates_item_failure (fun _ => []) (fun _ _ _ _ => false)
      (fun _ => .error .persistenceError) [] [] ⟨1, "hi", 0⟩ [] ⟨[], []⟩
      .persistenceError rfl⟩

/-- C5: with the spec-modelled similarity helper, a source configured with
duplicate threshold `0` treats every message as a duplicate once any
record for the source is committed: the duplicate check answers `true` and
the worker body drops the item — the session is returned unchanged,
whatever the message text, the AI extractor and the commit behaviour. -/
theorem c5_threshold_zero_drops_everything
    (aiExtract : String → List (String × String))
    (commitF : Session → Except PyErr Session)
    (tag_configs : List (Int × List TagConfig))
    (chat_configs : List (Int × ChatCfg)) (chat_id : Int) (text : String)
    (ts : Nat) (s : Session) (cfg : ChatCfg)
    (hcfg : getKey chat_configs chat_id = some cfg)
    (hthr : cfg.duplicate_threshold = 0)
    (hact : cfg.active = true)
    (hrec : ∃ r ∈ s.committed, r.chat_id = chat_id) :
    check_dup_similarity text chat_id 0 s = true
    ∧ stepItem aiExtract check_dup_similarity commitF tag_configs
        chat_configs ⟨chat_id, text, ts⟩ s = .ok s := by
  have hdup : check_dup_similarity text chat_id 0 s = true := by
    unfold check_dup_similarity check_duplicates_with_levenshtein
    rw [goSim_total]
    obtain ⟨r, hr, hrc⟩ := hrec
    have hne : recentTexts chat_id s ≠ [] := by
      unfold recentTexts
      simp only [ne_eq, List.map_eq_nil_iff, List.take_eq_nil_iff]
      push_neg
      refine ⟨by decide, ?_⟩
      exact List.ne_nil_of_mem (List.mem_filter.mpr ⟨hr, by simp [hrc]⟩)
    obtain ⟨m, rest, hm⟩ := List.exists_cons_of_ne_nil hne
    rw [hm]
    simp [is_similar_thr_zero]
  refine ⟨hdup, ?_⟩
  unfold stepItem
  simp only [get_chat_config, hcfg, Option.getD_some, hact,
    Bool.not_true, Bool.false_eq_true, if_false]
  rw [hthr, hdup]
  simp

/-- Witness for C5: chat 1 has threshold `0` and one committed record; an
incoming message with unrelated content is dropped. -/
theorem c5_threshold_zero_drops_everything_witness :
    (getKey [((1 : Int), (⟨[], true, 0, true⟩ : ChatCfg))] 1 =
        some ⟨[], true, 0, true⟩
      ∧ (⟨[], true, 0, true⟩ : ChatCfg).duplicate_threshold = 0
      ∧ (⟨[], true, 0, true⟩ : ChatCfg).active = true
      ∧ ∃ r ∈ (⟨[⟨1, "old", none, none, none, none, 0⟩], []⟩ :
          Session).committed, r.chat_id = 1)
    ∧ (check_dup_similarity "anything else" 1 0
        ⟨[⟨1, "old", none, none, none, none, 0⟩], []⟩ = true
      ∧ stepItem (fun _ => []) check_dup_similarity (fun u => .ok u) []
          [((1 : Int), ⟨[], true, 0, true⟩)] ⟨1, "anything else", 5⟩
          ⟨[⟨1, "old", none, none, none, none, 0⟩], []⟩ =
        .ok ⟨[⟨1, "old", none, none, none, none, 0⟩], []⟩) :=
  ⟨⟨by decide, by decide, by decide, by decide⟩,
    c5_threshold_zero_drops_everything (fun _ => []) (fun u => .ok u) []
      [((1 : Int), ⟨[], true, 0, true⟩)] 1 "anything else" 5
      ⟨[⟨1, "old", none, none, none, none, 0⟩], []⟩ ⟨[], true, 0, true⟩
      (by decide) (by decide) (by decide) (by decide)⟩

end Fieldify
